import Mathlib

/-!
Shallow embedding of the EIP-7702 demo repository's delegation-aware call
dispatcher and its supporting modules.

The embedded code comes from:
* the batch-transfer entry point (`batchTransfer` script, "Atomic Batch
  ERC-20 Transfer"): environment validation, assembly of the two transfer
  call descriptors, the deployment check, conditional EIP-7702
  authorization signing, batched-execute encoding, submission and
  receipt wait;
* the single-transfer entry point ("Atomic EIP-7702 Authorization +
  ERC-20 Transfer"): same flow with one direct call;
* the `clients` module: memoized `getSimple7702Account` and
  `getSmartAccountClient` factory functions.

External capabilities (viem / permissionless) are modelled as explicit
oracles: chain state is a record of code, transaction-count and
internal-nonce maps, the receipt wait is an outcome parameter, and every
network interaction is recorded in a trace of `NetOp` values in program
order.
-/

namespace EIP7702

/-- Hex-string account address, as the scripts carry them. -/
abbrev Address := String

/-- Call data produced by `encodeFunctionData` for the ERC-20 `transfer`
function — the only call data the repository ever encodes.  Modelled
symbolically: the ABI byte encoding itself belongs to viem. -/
inductive CallData where
  | erc20Transfer (recipient : Address) (amount : Nat)
deriving DecidableEq

/-- A call descriptor `{to, value, data}` as assembled into the `calls`
array of the batch script. -/
structure CallDescriptor where
  «to» : Address
  value : Nat
  data : CallData
deriving DecidableEq

/-- The SimpleAccount batched-execute encoding produced by
`account.encodeCalls`: three parallel arrays (destinations, values,
per-call data), in input order. -/
structure BatchEncoding where
  dest : List Address
  value : List Nat
  func : List CallData
deriving DecidableEq

/-- `account.encodeCalls`: encode an ordered list of call descriptors as a
batched-execute payload. -/
def encodeCalls (calls : List CallDescriptor) : BatchEncoding :=
  { dest := calls.map (fun c => c.«to»)
    value := calls.map (fun c => c.value)
    func := calls.map (fun c => c.data) }

/-- Decode a batched-execute payload back into call descriptors, pairing
the three arrays positionally. -/
def decodeBatch (b : BatchEncoding) : List CallDescriptor :=
  (b.dest.zip (b.value.zip b.func)).map (fun p => ⟨p.1, p.2.1, p.2.2⟩)

/-- The `data` field of the submitted transaction parameters: either the
direct call data of a single call, or a batched-execute encoding. -/
inductive TxData where
  | direct (d : CallData)
  | batched (b : BatchEncoding)
deriving DecidableEq

/-- A signed EIP-7702 authorization as produced by
`owner.signAuthorization({contractAddress, chainId, nonce})`. -/
structure Authorization where
  contractAddress : Address
  chainId : Nat
  nonce : Nat
  signer : Address
deriving DecidableEq

/-- The `txParams` object handed to `smartAccountClient.sendTransaction`;
the dynamically added `authorization` key becomes an `Option`. -/
structure TxParams where
  «to» : Address
  value : Nat
  data : TxData
  authorization : Option Authorization
deriving DecidableEq

/-- Chain state as seen through the public client: deployed code per
address, the chain-level transaction count (EOA nonce) per address, and —
for distinguishing the nonce sources — the smart account's internal
nonce/call counter, which the scripts never read. -/
structure ChainState where
  code : Address → List Nat
  transactionCount : Address → Nat
  accountInternalNonce : Address → Nat

/-- `smartAccountClient.account.isDeployed()`: code presence at the
account address. -/
def isDeployed (s : ChainState) (a : Address) : Bool :=
  !(s.code a).isEmpty

/-- Receipt status as reported by `waitForTransactionReceipt`. -/
inductive ReceiptStatus where
  | success
  | reverted
deriving DecidableEq

/-- The submission result: transaction receipt fields the scripts read. -/
structure Receipt where
  status : ReceiptStatus
  blockNumber : Nat
  gasUsed : Nat
deriving DecidableEq

/-- Outcome of the bounded receipt wait: a receipt, or a timeout of the
120 s bound. -/
inductive WaitOutcome where
  | receipt (r : Receipt)
  | timedOut
deriving DecidableEq

/-- The spec's error taxonomy (section 7). -/
inductive DispatchError where
  | configurationError (msg : String)
  | transportError (msg : String)
  | executionError (msg : String)
  | timeoutError (msg : String)
deriving DecidableEq

/-- One network interaction, recorded in program order. -/
inductive NetOp where
  | isDeployedCheck (account : Address)
  | getTransactionCount (address : Address)
  | readBalance (token holder : Address)
  | sendTransaction (tx : TxParams)
  | waitForReceipt (timeoutMs : Nat)
deriving DecidableEq

/-- Does a network op submit a transaction? -/
def isSend : NetOp → Bool
  | .sendTransaction _ => true
  | _ => false

instance {ε α : Type} [DecidableEq ε] [DecidableEq α] :
    DecidableEq (Except ε α) := fun a b =>
  match a, b with
  | .error e1, .error e2 =>
    if h : e1 = e2 then .isTrue (by rw [h]) else .isFalse (by simp [h])
  | .error _, .ok _ => .isFalse (by simp)
  | .ok _, .error _ => .isFalse (by simp)
  | .ok v1, .ok v2 =>
    if h : v1 = v2 then .isTrue (by rw [h]) else .isFalse (by simp [h])

/-- Result of one entry-point run: the network trace, the transaction
parameters submitted (if the run got that far), and the terminal result.
A `.error` result makes `main` throw, reaching the `process.exit(1)`
catch handler. -/
structure Outcome where
  trace : List NetOp
  submitted : Option TxParams
  result : Except DispatchError Receipt
deriving DecidableEq

/-- The process exit contract: normal termination on success, exit code 1
from the catch handler (or the explicit reverted branch) otherwise. -/
def exitCode (o : Outcome) : Nat :=
  match o.result with
  | .ok _ => 0
  | .error _ => 1

/-- Environment variables read by the entry points. `none` models an
unset variable (`undefined` in JS); the scripts' `!x` falsiness test also
catches the empty string. -/
structure Env where
  erc20TokenAddress : Option String
  receiverAddress : Option String
  receiverAddress2 : Option String
deriving DecidableEq

/-- JS falsiness of an optional env string: `undefined` or `""`. -/
def falsy : Option String → Bool
  | none => true
  | some s => s.isEmpty

/-- `SIMPLE_ACCOUNT_LOGIC_ADDRESS`, the fixed SimpleAccount
implementation bound into every authorization. -/
def SIMPLE_ACCOUNT_LOGIC_ADDRESS : Address :=
  "0xe6Cae83BdE06E4c305530e199D7217f42808555B"

/-- `sepolia.id`. -/
def sepoliaChainId : Nat := 11155111

/-- The `timeout: 120_000` bound passed to `waitForTransactionReceipt`. -/
def RECEIPT_TIMEOUT_MS : Nat := 120000

/-- `10n * 10n ** 18n`: amount of the first batch transfer. -/
def batchAmount1 : Nat := 10 * 10 ^ 18

/-- `20n * 10n ** 18n`: amount of the second batch transfer. -/
def batchAmount2 : Nat := 20 * 10 ^ 18

/-- `10n * 10n ** 18n`: amount of the single-script transfer. -/
def singleAmount : Nat := 10 * 10 ^ 18

/-- `owner.signAuthorization`: bind the implementation address, chain id
and nonce, signed by the owner EOA. -/
def signAuthorization (signer contractAddress : Address)
    (chainId nonce : Nat) : Authorization :=
  { contractAddress := contractAddress, chainId := chainId
    nonce := nonce, signer := signer }

/-- Env validation of the batch entry point: `ERC20_TOKEN_ADDRESS` and
`RECEIVER_ADDRESS` are rejected when falsy or equal to `"0x"`;
`RECEIVER_ADDRESS2` only when falsy. -/
def validateBatchEnv (e : Env) :
    Except DispatchError (Address × Address × Address) :=
  if falsy e.erc20TokenAddress || e.erc20TokenAddress = some "0x" then
    .error (.configurationError "ERC20_TOKEN_ADDRESS is missing in .env")
  else if falsy e.receiverAddress || e.receiverAddress = some "0x" then
    .error (.configurationError "RECEIVER_ADDRESS is missing in .env")
  else if falsy e.receiverAddress2 then
    .error (.configurationError "RECEIVER_ADDRESS2 is missing in .env")
  else
    .ok (e.erc20TokenAddress.getD "", e.receiverAddress.getD "",
         e.receiverAddress2.getD "")

/-- Env validation of the single-transfer entry point: both
`ERC20_TOKEN_ADDRESS` and `RECEIVER_ADDRESS` rejected when falsy or
`"0x"`. -/
def validateSingleEnv (e : Env) :
    Except DispatchError (Address × Address) :=
  if falsy e.erc20TokenAddress || e.erc20TokenAddress = some "0x" then
    .error (.configurationError "ERC20_TOKEN_ADDRESS is missing in .env")
  else if falsy e.receiverAddress || e.receiverAddress = some "0x" then
    .error (.configurationError "RECEIVER_ADDRESS is missing in .env")
  else
    .ok (e.erc20TokenAddress.getD "", e.receiverAddress.getD "")

/-- The shared `if (!isDeployed)` branch of both entry points: read the
owner EOA's chain-level transaction count and sign an authorization over
it; when deployed, no authorization and no nonce read. -/
def authorizationStep (deployed : Bool) (ownerAddr : Address)
    (chain : ChainState) : Option Authorization × List NetOp :=
  if deployed then (none, [])
  else
    (some (signAuthorization ownerAddr SIMPLE_ACCOUNT_LOGIC_ADDRESS
        sepoliaChainId (chain.transactionCount ownerAddr)),
     [NetOp.getTransactionCount ownerAddr])

/-- The shared submit-and-wait tail of both entry points: one
`sendTransaction`, one `waitForTransactionReceipt` bounded by 120 s, then
the reverted check (`process.exit(1)`), with the post-success
verification reads appended on the success path. -/
def settle (preTrace : List NetOp) (tx : TxParams) (wait : WaitOutcome)
    (postSuccess : List NetOp) : Outcome :=
  let trace := preTrace ++
    [NetOp.sendTransaction tx, NetOp.waitForReceipt RECEIPT_TIMEOUT_MS]
  match wait with
  | .timedOut =>
    { trace := trace, submitted := some tx
      result := .error (.timeoutError
        "Timed out waiting for transaction receipt") }
  | .receipt r =>
    match r.status with
    | .reverted =>
      { trace := trace, submitted := some tx
        result := .error (.executionError "Transaction reverted") }
    | .success =>
      { trace := trace ++ postSuccess, submitted := some tx
        result := .ok r }

/-- Core of the batch entry point after env validation: snapshot three
balances, assemble the two transfer descriptors in order (receiver 1 then
receiver 2), check deployment, conditionally sign an authorization,
encode with `encodeCalls`, and submit to the smart account's own
address. -/
def batchCore (token r1 r2 ownerAddr accountAddr : Address)
    (chain : ChainState) (wait : WaitOutcome) : Outcome :=
  let balanceReads := [NetOp.readBalance token accountAddr,
    NetOp.readBalance token r1, NetOp.readBalance token r2]
  let calls : List CallDescriptor :=
    [{ «to» := token, value := 0, data := .erc20Transfer r1 batchAmount1 },
     { «to» := token, value := 0, data := .erc20Transfer r2 batchAmount2 }]
  let deployed := isDeployed chain accountAddr
  let step := authorizationStep deployed ownerAddr chain
  let tx : TxParams :=
    { «to» := accountAddr, value := 0
      data := .batched (encodeCalls calls), authorization := step.1 }
  let preTrace := balanceReads ++ [NetOp.isDeployedCheck accountAddr] ++
    step.2
  let postSuccess :=
    (if deployed then [] else [NetOp.isDeployedCheck accountAddr]) ++
    balanceReads
  settle preTrace tx wait postSuccess

/-- Core of the single-transfer entry point after env validation: two
balance snapshots, direct transfer call data, deployment check,
conditional authorization, submission to the token address. -/
def singleCore (token receiver ownerAddr accountAddr : Address)
    (chain : ChainState) (wait : WaitOutcome) : Outcome :=
  let balanceReads := [NetOp.readBalance token accountAddr,
    NetOp.readBalance token receiver]
  let transferData := CallData.erc20Transfer receiver singleAmount
  let deployed := isDeployed chain accountAddr
  let step := authorizationStep deployed ownerAddr chain
  let tx : TxParams :=
    { «to» := token, value := 0
      data := .direct transferData, authorization := step.1 }
  let preTrace := balanceReads ++ [NetOp.isDeployedCheck accountAddr] ++
    step.2
  let postSuccess := [NetOp.isDeployedCheck accountAddr] ++ balanceReads
  settle preTrace tx wait postSuccess

/-- `main` of the batch entry point: validate the environment (throwing a
configuration error before any network interaction), then run the batch
flow. -/
def batchTransferMain (env : Env) (ownerAddr accountAddr : Address)
    (chain : ChainState) (wait : WaitOutcome) : Outcome :=
  match validateBatchEnv env with
  | .error e => { trace := [], submitted := none, result := .error e }
  | .ok (t, r1, r2) => batchCore t r1 r2 ownerAddr accountAddr chain wait

/-- `main` of the single-transfer entry point. -/
def singleTransferMain (env : Env) (ownerAddr accountAddr : Address)
    (chain : ChainState) (wait : WaitOutcome) : Outcome :=
  match validateSingleEnv env with
  | .error e => { trace := [], submitted := none, result := .error e }
  | .ok (t, r) => singleCore t r ownerAddr accountAddr chain wait

/-- Modelled from the spec: the generic `dispatch(calls, signer,
accountAddress)` operation of section 4.1.  The repository has no
free-standing dispatch function — both entry points inline the flow over
a call list fixed by validated configuration, so the zero-descriptor
guard exists only as the spec's input constraint ("non-empty ordered
sequence", scenario 8).  An empty call sequence fails with a
configuration error before any network interaction; otherwise the flow
matches the inlined one: deployment check, conditional authorization,
direct data and the single call's target for one call, batched-execute
data and the account's own address for several. -/
def dispatch (calls : List CallDescriptor) (ownerAddr accountAddr : Address)
    (chain : ChainState) (wait : WaitOutcome) : Outcome :=
  match calls with
  | [] =>
    { trace := [], submitted := none
      result := .error (.configurationError "no call descriptors") }
  | c :: rest =>
    let deployed := isDeployed chain accountAddr
    let step := authorizationStep deployed ownerAddr chain
    let tx : TxParams :=
      if rest.isEmpty then
        { «to» := c.«to», value := c.value
          data := .direct c.data, authorization := step.1 }
      else
        { «to» := accountAddr, value := 0
          data := .batched (encodeCalls (c :: rest))
          authorization := step.1 }
    settle ([NetOp.isDeployedCheck accountAddr] ++ step.2) tx wait []

/-! Chain-query step semantics for the determinism of the deployment
check: reads answer from the current chain state and leave it unchanged;
only a submission changes state (through an arbitrary transition
function, since the chain's execution engine is external). -/

/-- A blocking chain interaction, as issued by the scripts. -/
inductive ChainQuery where
  | isDeployedQ (a : Address)
  | transactionCountQ (a : Address)
  | submitQ (tx : TxParams)
deriving DecidableEq

/-- Answer of one chain interaction. -/
inductive QueryResult where
  | boolR (b : Bool)
  | natR (n : Nat)
  | hashR
deriving DecidableEq

/-- Is the query a transaction submission? -/
def isSubmitQ : ChainQuery → Bool
  | .submitQ _ => true
  | _ => false

/-- Execute one chain interaction: reads are pure observations of the
state, a submission transforms the state by the (external) transition
function `applyTx`. -/
def execQuery (applyTx : ChainState → TxParams → ChainState)
    (s : ChainState) : ChainQuery → QueryResult × ChainState
  | .isDeployedQ a => (.boolR (isDeployed s a), s)
  | .transactionCountQ a => (.natR (s.transactionCount a), s)
  | .submitQ tx => (.hashR, applyTx s tx)

/-- Execute a sequence of chain interactions in order. -/
def runQueries (applyTx : ChainState → TxParams → ChainState)
    (s : ChainState) : List ChainQuery → List QueryResult × ChainState
  | [] => ([], s)
  | q :: qs =>
    let step := execQuery applyTx s q
    let rest := runQueries applyTx step.2 qs
    (step.1 :: rest.1, rest.2)

/-! The `clients` module: memoized account and client factories. -/

/-- The account object built by `to7702SimpleSmartAccount`: with in-place
EIP-7702 delegation its address is the owner EOA's own address. -/
structure Simple7702Account where
  address : Address
deriving DecidableEq

/-- The smart-account client built by `createSmartAccountClient` around
an account. -/
structure SmartAccountClient where
  account : Simple7702Account
deriving DecidableEq

/-- The module-level mutable cache of the `clients` module:
`_simple7702Account` and `_smartAccountClient`, both initially `null`. -/
structure ClientsState where
  simple7702Account : Option Simple7702Account
  smartAccountClient : Option SmartAccountClient
deriving DecidableEq

/-- Cache state at process start: both slots `null`. -/
def initialClientsState : ClientsState :=
  { simple7702Account := none, smartAccountClient := none }

/-- `to7702SimpleSmartAccount({client, owner})`: construct the account
object (address = owner address under in-place delegation). -/
def to7702SimpleSmartAccount (ownerAddr : Address) : Simple7702Account :=
  { address := ownerAddr }

/-- `createSmartAccountClient({account, ...})`. -/
def createSmartAccountClient (account : Simple7702Account) :
    SmartAccountClient :=
  { account := account }

/-- Result of one `getSimple7702Account` call: the returned account, the
cache state afterwards, and how many times the account constructor ran
during the call. -/
structure AccountGetResult where
  account : Simple7702Account
  state : ClientsState
  constructions : Nat
deriving DecidableEq

/-- Result of one `getSmartAccountClient` call, counting both the account
and the client constructions it triggered. -/
structure ClientGetResult where
  client : SmartAccountClient
  state : ClientsState
  accountConstructions : Nat
  clientConstructions : Nat
deriving DecidableEq

/-- `getSimple7702Account`: return the cached account if present,
otherwise construct it once and cache it. -/
def getSimple7702Account (ownerAddr : Address) (st : ClientsState) :
    AccountGetResult :=
  match st.simple7702Account with
  | some a => ⟨a, st, 0⟩
  | none =>
    let a := to7702SimpleSmartAccount ownerAddr
    ⟨a, { st with simple7702Account := some a }, 1⟩

/-- `getSmartAccountClient`: return the cached client if present,
otherwise obtain the account through `getSimple7702Account`, construct
the client once around it and cache it. -/
def getSmartAccountClient (ownerAddr : Address) (st : ClientsState) :
    ClientGetResult :=
  match st.smartAccountClient with
  | some c => ⟨c, st, 0, 0⟩
  | none =>
    let r := getSimple7702Account ownerAddr st
    let c := createSmartAccountClient r.account
    ⟨c, { r.state with smartAccountClient := some c }, r.constructions, 1⟩

/-- Repeat `getSimple7702Account` `k` times from a state, threading the
cache and summing the construction counts. -/
def iterateGetAccount (ownerAddr : Address) (st : ClientsState) :
    Nat → ClientsState × Nat
  | 0 => (st, 0)
  | k + 1 =>
    let r := getSimple7702Account ownerAddr st
    let rest := iterateGetAccount ownerAddr r.state k
    (rest.1, r.constructions + rest.2)

/-- Repeat `getSmartAccountClient` `k` times from a state, threading the
cache and summing the client-construction counts. -/
def iterateGetClient (ownerAddr : Address) (st : ClientsState) :
    Nat → ClientsState × Nat
  | 0 => (st, 0)
  | k + 1 =>
    let r := getSmartAccountClient ownerAddr st
    let rest := iterateGetClient ownerAddr r.state k
    (rest.1, r.clientConstructions + rest.2)

/-! Helper lemmas. -/

theorem settle_submitted (pre : List NetOp) (tx : TxParams)
    (w : WaitOutcome) (post : List NetOp) :
    (settle pre tx w post).submitted = some tx := by
  rcases w with ⟨st, bn, gu⟩ | _
  · cases st <;> rfl
  · rfl

theorem authorizationStep_deployed (o : Address) (chain : ChainState) :
    authorizationStep true o chain = (none, []) := rfl

theorem authorizationStep_not_deployed (o : Address) (chain : ChainState) :
    authorizationStep false o chain =
      (some (signAuthorization o SIMPLE_ACCOUNT_LOGIC_ADDRESS
        sepoliaChainId (chain.transactionCount o)),
       [NetOp.getTransactionCount o]) := rfl

/-- The call descriptors the batch entry point assembles, in assembly
order: receiver 1's transfer first, then receiver 2's. -/
def batchCalls (token r1 r2 : Address) : List CallDescriptor :=
  [{ «to» := token, value := 0, data := .erc20Transfer r1 batchAmount1 },
   { «to» := token, value := 0, data := .erc20Transfer r2 batchAmount2 }]

theorem batchCore_submitted (t r1 r2 o acc : Address) (chain : ChainState)
    (wait : WaitOutcome) :
    (batchCore t r1 r2 o acc chain wait).submitted = some
      { «to» := acc, value := 0
        data := .batched (encodeCalls (batchCalls t r1 r2))
        authorization :=
          (authorizationStep (isDeployed chain acc) o chain).1 } := by
  simp [batchCore, batchCalls, settle_submitted]

theorem singleCore_submitted (t r o acc : Address) (chain : ChainState)
    (wait : WaitOutcome) :
    (singleCore t r o acc chain wait).submitted = some
      { «to» := t, value := 0
        data := .direct (CallData.erc20Transfer r singleAmount)
        authorization :=
          (authorizationStep (isDeployed chain acc) o chain).1 } := by
  simp [singleCore, settle_submitted]

theorem batchTransferMain_ok (env : Env) (o acc : Address)
    (chain : ChainState) (wait : WaitOutcome) (t r1 r2 : Address)
    (hv : validateBatchEnv env = .ok (t, r1, r2)) :
    batchTransferMain env o acc chain wait =
      batchCore t r1 r2 o acc chain wait := by
  simp [batchTransferMain, hv]

theorem singleTransferMain_ok (env : Env) (o acc : Address)
    (chain : ChainState) (wait : WaitOutcome) (t r : Address)
    (hv : validateSingleEnv env = .ok (t, r)) :
    singleTransferMain env o acc chain wait =
      singleCore t r o acc chain wait := by
  simp [singleTransferMain, hv]

theorem batchCore_chain_congr (t r1 r2 o acc : Address)
    (chain chain2 : ChainState) (wait : WaitOutcome)
    (hcode : chain2.code = chain.code)
    (hcount : chain2.transactionCount = chain.transactionCount) :
    batchCore t r1 r2 o acc chain2 wait =
      batchCore t r1 r2 o acc chain wait := by
  simp [batchCore, isDeployed, authorizationStep, hcode, hcount]

theorem singleCore_chain_congr (t r o acc : Address)
    (chain chain2 : ChainState) (wait : WaitOutcome)
    (hcode : chain2.code = chain.code)
    (hcount : chain2.transactionCount = chain.transactionCount) :
    singleCore t r o acc chain2 wait = singleCore t r o acc chain wait := by
  simp [singleCore, isDeployed, authorizationStep, hcode, hcount]

/-! Concrete instances used by the witnesses. -/

/-- A fully populated environment. -/
def envA : Env :=
  { erc20TokenAddress := some "0xT", receiverAddress := some "0xR1"
    receiverAddress2 := some "0xR2" }

/-- Concrete owner EOA address (also the smart account address, under
in-place delegation). -/
def ownerA : Address := "0xOwner"

/-- A chain state with no code anywhere (account not deployed), the
owner's transaction count 7, and an unrelated internal nonce 99. -/
def chainA : ChainState :=
  { code := fun _ => [], transactionCount := fun _ => 7
    accountInternalNonce := fun _ => 99 }

/-- A successful receipt outcome. -/
def waitA : WaitOutcome :=
  .receipt { status := .success, blockNumber := 5, gasUsed := 21000 }

/-- The authorization the scripts sign on `chainA`. -/
def authA : Authorization :=
  signAuthorization ownerA SIMPLE_ACCOUNT_LOGIC_ADDRESS sepoliaChainId 7

/-- The transaction parameters the batch entry point submits on
`envA`/`chainA`. -/
def txA : TxParams :=
  { «to» := ownerA, value := 0
    data := .batched (encodeCalls (batchCalls "0xT" "0xR1" "0xR2"))
    authorization := some authA }

/-! Claim C1. -/

/-- Claim C1: whenever the account is observed not-yet-deployed and an
authorization is constructed, its nonce is the signer EOA's own
chain-level transaction count, and the whole run is independent of the
target account's internal nonce (two chain states agreeing on code and
transaction counts — but with arbitrary internal nonces — produce
identical outcomes, for both entry points). -/
theorem C1_authorization_nonce_source
    (env : Env) (o acc : Address) (chain chain2 : ChainState)
    (wait : WaitOutcome) (tx : TxParams) (a : Authorization)
    (hcode : chain2.code = chain.code)
    (hcount : chain2.transactionCount = chain.transactionCount) :
    ((batchTransferMain env o acc chain wait).submitted = some tx →
      tx.authorization = some a → a.nonce = chain.transactionCount o) ∧
    ((singleTransferMain env o acc chain wait).submitted = some tx →
      tx.authorization = some a → a.nonce = chain.transactionCount o) ∧
    batchTransferMain env o acc chain2 wait =
      batchTransferMain env o acc chain wait ∧
    singleTransferMain env o acc chain2 wait =
      singleTransferMain env o acc chain wait := by
  refine ⟨?_, ?_, ?_, ?_⟩
  · intro hsub hauth
    rcases hval : validateBatchEnv env with e | ⟨t, r1, r2⟩
    · rw [batchTransferMain, hval] at hsub
      simp at hsub
    · rw [batchTransferMain_ok env o acc chain wait t r1 r2 hval,
        batchCore_submitted] at hsub
      obtain rfl := Option.some_injective _ hsub
      rcases hd : isDeployed chain acc with _ | _ <;>
        rw [hd] at hauth
      · rw [authorizationStep_not_deployed] at hauth
        simp [signAuthorization] at hauth
        simp [← hauth, signAuthorization]
      · rw [authorizationStep_deployed] at hauth
        simp at hauth
  · intro hsub hauth
    rcases hval : validateSingleEnv env with e | ⟨t, r⟩
    · rw [singleTransferMain, hval] at hsub
      simp at hsub
    · rw [singleTransferMain_ok env o acc chain wait t r hval,
        singleCore_submitted] at hsub
      obtain rfl := Option.some_injective _ hsub
      rcases hd : isDeployed chain acc with _ | _ <;>
        rw [hd] at hauth
      · rw [authorizationStep_not_deployed] at hauth
        simp [signAuthorization] at hauth
        simp [← hauth, signAuthorization]
      · rw [authorizationStep_deployed] at hauth
        simp at hauth
  · rcases hval : validateBatchEnv env with e | ⟨t, r1, r2⟩
    · rw [batchTransferMain, batchTransferMain, hval]
    · rw [batchTransferMain_ok env o acc chain wait t r1 r2 hval,
        batchTransferMain_ok env o acc chain2 wait t r1 r2 hval]
      exact batchCore_chain_congr t r1 r2 o acc chain chain2 wait hcode hcount
  · rcases hval : validateSingleEnv env with e | ⟨t, r⟩
    · rw [singleTransferMain, singleTransferMain, hval]
    · rw [singleTransferMain_ok env o acc chain wait t r hval,
        singleTransferMain_ok env o acc chain2 wait t r hval]
      exact singleCore_chain_congr t r o acc chain chain2 wait hcode hcount

/-- Witness for C1 at concrete inputs: populated environment, a chain
with the account not deployed and owner transaction count 7. -/
theorem C1_authorization_nonce_source_witness :
    ((batchTransferMain envA ownerA ownerA chainA waitA).submitted =
        some txA →
      txA.authorization = some authA →
        authA.nonce = chainA.transactionCount ownerA) ∧
    ((singleTransferMain envA ownerA ownerA chainA waitA).submitted =
        some txA →
      txA.authorization = some authA →
        authA.nonce = chainA.transactionCount ownerA) ∧
    batchTransferMain envA ownerA ownerA chainA waitA =
      batchTransferMain envA ownerA ownerA chainA waitA ∧
    singleTransferMain envA ownerA ownerA chainA waitA =
      singleTransferMain envA ownerA ownerA chainA waitA :=
  C1_authorization_nonce_source envA ownerA ownerA chainA chainA waitA
    txA authA rfl rfl

/-! Claim C2. -/

/-- The transaction parameters the single-transfer entry point submits on
`envA`/`chainA`. -/
def txS : TxParams :=
  { «to» := "0xT", value := 0
    data := .direct (.erc20Transfer "0xR1" singleAmount)
    authorization := some authA }

/-- Claim C2: the submission carries a signed authorization exactly when
the deployment check returned false, and any attached authorization
binds the SimpleAccount implementation address, the Sepolia chain id and
the signer's chain-level nonce — for both entry points. -/
theorem C2_authorization_presence
    (env : Env) (o acc : Address) (chain : ChainState)
    (wait : WaitOutcome) (txb txs : TxParams)
    (hb : (batchTransferMain env o acc chain wait).submitted = some txb)
    (hs : (singleTransferMain env o acc chain wait).submitted = some txs) :
    (txb.authorization.isSome ↔ isDeployed chain acc = false) ∧
    (txs.authorization.isSome ↔ isDeployed chain acc = false) ∧
    (∀ a, txb.authorization = some a →
      a = signAuthorization o SIMPLE_ACCOUNT_LOGIC_ADDRESS sepoliaChainId
        (chain.transactionCount o)) ∧
    (∀ a, txs.authorization = some a →
      a = signAuthorization o SIMPLE_ACCOUNT_LOGIC_ADDRESS sepoliaChainId
        (chain.transactionCount o)) := by
  rcases hvb : validateBatchEnv env with e | ⟨t, r1, r2⟩
  · rw [batchTransferMain, hvb] at hb
    simp at hb
  rcases hvs : validateSingleEnv env with e | ⟨t2, rc⟩
  · rw [singleTransferMain, hvs] at hs
    simp at hs
  rw [batchTransferMain_ok env o acc chain wait t r1 r2 hvb,
    batchCore_submitted] at hb
  rw [singleTransferMain_ok env o acc chain wait t2 rc hvs,
    singleCore_submitted] at hs
  obtain rfl := Option.some_injective _ hb
  obtain rfl := Option.some_injective _ hs
  rcases hd : isDeployed chain acc with _ | _ <;>
    simp [authorizationStep_deployed, authorizationStep_not_deployed,
      signAuthorization]

/-- Witness for C2 at concrete inputs: on the not-deployed `chainA` both
entry points attach the authorization `authA`. -/
theorem C2_authorization_presence_witness :
    (txA.authorization.isSome ↔ isDeployed chainA ownerA = false) ∧
    (txS.authorization.isSome ↔ isDeployed chainA ownerA = false) ∧
    (∀ a, txA.authorization = some a →
      a = signAuthorization ownerA SIMPLE_ACCOUNT_LOGIC_ADDRESS
        sepoliaChainId (chainA.transactionCount ownerA)) ∧
    (∀ a, txS.authorization = some a →
      a = signAuthorization ownerA SIMPLE_ACCOUNT_LOGIC_ADDRESS
        sepoliaChainId (chainA.transactionCount ownerA)) :=
  C2_authorization_presence envA ownerA ownerA chainA waitA txA txS
    (by decide) (by decide)

/-! Claim C3. -/

theorem decodeBatch_encodeCalls (calls : List CallDescriptor) :
    decodeBatch (encodeCalls calls) = calls := by
  induction calls with
  | nil => rfl
  | cons c cs ih => simpa [encodeCalls, decodeBatch] using ih

/-- Claim C3: the batched-execute encoding is order-preserving — decoding
any encoded batch reproduces the original (destination, value, data)
triples in input order — and the batch entry point passes its assembled
call sequence (receiver 1 first, receiver 2 second) to the encoder
unchanged: the submitted data is exactly the encoding of that sequence. -/
theorem C3_order_preservation
    (cs : List CallDescriptor) (env : Env) (o acc : Address)
    (chain : ChainState) (wait : WaitOutcome) (tx : TxParams)
    (t r1 r2 : Address)
    (hv : validateBatchEnv env = .ok (t, r1, r2))
    (hs : (batchTransferMain env o acc chain wait).submitted = some tx) :
    decodeBatch (encodeCalls cs) = cs ∧
    tx.data = .batched (encodeCalls (batchCalls t r1 r2)) ∧
    decodeBatch (encodeCalls (batchCalls t r1 r2)) =
      batchCalls t r1 r2 := by
  refine ⟨decodeBatch_encodeCalls cs, ?_, decodeBatch_encodeCalls _⟩
  rw [batchTransferMain_ok env o acc chain wait t r1 r2 hv,
    batchCore_submitted] at hs
  obtain rfl := Option.some_injective _ hs
  rfl

/-- Witness for C3 at concrete inputs: the concrete two-transfer batch of
`envA` round-trips through the encoder, and the submitted data is its
encoding. -/
theorem C3_order_preservation_witness :
    decodeBatch (encodeCalls (batchCalls "0xT" "0xR1" "0xR2")) =
      batchCalls "0xT" "0xR1" "0xR2" ∧
    txA.data = .batched (encodeCalls (batchCalls "0xT" "0xR1" "0xR2")) ∧
    decodeBatch (encodeCalls (batchCalls "0xT" "0xR1" "0xR2")) =
      batchCalls "0xT" "0xR1" "0xR2" :=
  C3_order_preservation (batchCalls "0xT" "0xR1" "0xR2") envA ownerA
    ownerA chainA waitA txA "0xT" "0xR1" "0xR2" (by decide) (by decide)

/-! Claim C4. -/

/-- Claim C4: invoking the (spec-modelled) dispatch operation with zero
call descriptors fails immediately with a configuration-error
classification, with an empty network trace — no deployment check, nonce
read or submission — and nothing submitted. -/
theorem C4_empty_calls_configuration_error
    (o acc : Address) (chain : ChainState) (wait : WaitOutcome) :
    (dispatch [] o acc chain wait).trace = [] ∧
    (dispatch [] o acc chain wait).submitted = none ∧
    (dispatch [] o acc chain wait).result =
      .error (.configurationError "no call descriptors") :=
  ⟨rfl, rfl, rfl⟩

/-! Claim C5. -/

theorem settle_sends (pre : List NetOp) (tx : TxParams) (w : WaitOutcome)
    (post : List NetOp)
    (hpre : pre.filter isSend = []) (hpost : post.filter isSend = []) :
    (settle pre tx w post).trace.filter isSend =
      [NetOp.sendTransaction tx] := by
  rcases w with ⟨st, bn, gu⟩ | _
  · cases st <;>
      simp [settle, List.filter_append, hpre, hpost, isSend]
  · simp [settle, List.filter_append, hpre, isSend]

theorem batchCore_sends (t r1 r2 o acc : Address) (chain : ChainState)
    (wait : WaitOutcome) (tx : TxParams)
    (hs : (batchCore t r1 r2 o acc chain wait).submitted = some tx) :
    (batchCore t r1 r2 o acc chain wait).trace.filter isSend =
      [NetOp.sendTransaction tx] := by
  rw [batchCore_submitted] at hs
  obtain rfl := Option.some_injective _ hs
  rcases hd : isDeployed chain acc with _ | _ <;>
    simp only [batchCore, batchCalls, hd] <;>
    exact settle_sends _ _ _ _ (by simp [isSend, authorizationStep])
      (by simp [isSend])

theorem singleCore_sends (t r o acc : Address) (chain : ChainState)
    (wait : WaitOutcome) (tx : TxParams)
    (hs : (singleCore t r o acc chain wait).submitted = some tx) :
    (singleCore t r o acc chain wait).trace.filter isSend =
      [NetOp.sendTransaction tx] := by
  rw [singleCore_submitted] at hs
  obtain rfl := Option.some_injective _ hs
  rcases hd : isDeployed chain acc with _ | _ <;>
    simp only [singleCore, hd] <;>
    exact settle_sends _ _ _ _ (by simp [isSend, authorizationStep])
      (by simp [isSend])

/-- Claim C5: a transaction included with reverted status is terminal for
the whole operation in both entry points — the result is classified as an
execution error (the printed "Transaction reverted" diagnostic), the
process exit code is non-zero, and the trace contains exactly one
submission (no resubmission). -/
theorem C5_reverted_is_terminal_failure
    (env : Env) (o acc : Address) (chain : ChainState) (r : Receipt)
    (t r1 r2 t2 rc : Address)
    (hvb : validateBatchEnv env = .ok (t, r1, r2))
    (hvs : validateSingleEnv env = .ok (t2, rc))
    (hr : r.status = .reverted) :
    (batchTransferMain env o acc chain (.receipt r)).result =
      .error (.executionError "Transaction reverted") ∧
    exitCode (batchTransferMain env o acc chain (.receipt r)) ≠ 0 ∧
    ((batchTransferMain env o acc chain
        (.receipt r)).trace.filter isSend).length = 1 ∧
    (singleTransferMain env o acc chain (.receipt r)).result =
      .error (.executionError "Transaction reverted") ∧
    exitCode (singleTransferMain env o acc chain (.receipt r)) ≠ 0 ∧
    ((singleTransferMain env o acc chain
        (.receipt r)).trace.filter isSend).length = 1 := by
  rw [batchTransferMain_ok env o acc chain _ t r1 r2 hvb,
    singleTransferMain_ok env o acc chain _ t2 rc hvs]
  refine ⟨?_, ?_, ?_, ?_, ?_, ?_⟩
  · simp [batchCore, settle, hr]
  · simp [batchCore, settle, hr, exitCode]
  · rw [batchCore_sends t r1 r2 o acc chain _ _ (batchCore_submitted ..)]
    rfl
  · simp [singleCore, settle, hr]
  · simp [singleCore, settle, hr, exitCode]
  · rw [singleCore_sends t2 rc o acc chain _ _ (singleCore_submitted ..)]
    rfl

/-- A reverted receipt outcome. -/
def waitRevert : WaitOutcome :=
  .receipt { status := .reverted, blockNumber := 6, gasUsed := 100 }

/-- Witness for C5 at concrete inputs: a reverted receipt on `envA`. -/
theorem C5_reverted_is_terminal_failure_witness :
    (batchTransferMain envA ownerA ownerA chainA waitRevert).result =
      .error (.executionError "Transaction reverted") ∧
    exitCode (batchTransferMain envA ownerA ownerA chainA waitRevert) ≠
      0 ∧
    ((batchTransferMain envA ownerA ownerA chainA
        waitRevert).trace.filter isSend).length = 1 ∧
    (singleTransferMain envA ownerA ownerA chainA waitRevert).result =
      .error (.executionError "Transaction reverted") ∧
    exitCode (singleTransferMain envA ownerA ownerA chainA waitRevert) ≠
      0 ∧
    ((singleTransferMain envA ownerA ownerA chainA
        waitRevert).trace.filter isSend).length = 1 :=
  C5_reverted_is_terminal_failure envA ownerA ownerA chainA
    { status := .reverted, blockNumber := 6, gasUsed := 100 }
    "0xT" "0xR1" "0xR2" "0xT" "0xR1" (by decide) (by decide) rfl

/-! Claim C6. -/

/-- Claim C6: the submission destination depends on the call shape — the
batch entry point submits to the smart account's own address with the
batched-execute data, the single-transfer entry point submits to the
single call's target with that call's direct data — and each run submits
exactly one combined request. -/
theorem C6_destination_by_shape
    (env : Env) (o acc : Address) (chain : ChainState)
    (wait : WaitOutcome) (t r1 r2 t2 rc : Address)
    (hvb : validateBatchEnv env = .ok (t, r1, r2))
    (hvs : validateSingleEnv env = .ok (t2, rc)) :
    (∃ tx, (batchTransferMain env o acc chain wait).submitted = some tx ∧
      tx.«to» = acc ∧
      tx.data = .batched (encodeCalls (batchCalls t r1 r2)) ∧
      (batchTransferMain env o acc chain wait).trace.filter isSend =
        [NetOp.sendTransaction tx]) ∧
    (∃ tx, (singleTransferMain env o acc chain wait).submitted = some tx ∧
      tx.«to» = t2 ∧
      tx.data = .direct (CallData.erc20Transfer rc singleAmount) ∧
      (singleTransferMain env o acc chain wait).trace.filter isSend =
        [NetOp.sendTransaction tx]) := by
  rw [batchTransferMain_ok env o acc chain wait t r1 r2 hvb,
    singleTransferMain_ok env o acc chain wait t2 rc hvs]
  exact ⟨⟨_, batchCore_submitted .., rfl, rfl,
      batchCore_sends t r1 r2 o acc chain wait _ (batchCore_submitted ..)⟩,
    ⟨_, singleCore_submitted .., rfl, rfl,
      singleCore_sends t2 rc o acc chain wait _ (singleCore_submitted ..)⟩⟩

/-- Witness for C6 at concrete inputs. -/
theorem C6_destination_by_shape_witness :
    (∃ tx, (batchTransferMain envA ownerA ownerA chainA waitA).submitted =
        some tx ∧
      tx.«to» = ownerA ∧
      tx.data = .batched (encodeCalls (batchCalls "0xT" "0xR1" "0xR2")) ∧
      (batchTransferMain envA ownerA ownerA chainA
        waitA).trace.filter isSend = [NetOp.sendTransaction tx]) ∧
    (∃ tx, (singleTransferMain envA ownerA ownerA chainA waitA).submitted =
        some tx ∧
      tx.«to» = "0xT" ∧
      tx.data = .direct (CallData.erc20Transfer "0xR1" singleAmount) ∧
      (singleTransferMain envA ownerA ownerA chainA
        waitA).trace.filter isSend = [NetOp.sendTransaction tx]) :=
  C6_destination_by_shape envA ownerA ownerA chainA waitA
    "0xT" "0xR1" "0xR2" "0xT" "0xR1" (by decide) (by decide)

/-! Claim C7. -/

/-- Claim C7: both entry points bound the receipt wait by exactly 120 000
milliseconds (every wait op in any trace carries that bound), a timeout
outcome is classified as a timeout error — a classification distinct from
the reverted-execution failure, so the caller can treat it as an unknown
rather than failed outcome — and it does not block: the run terminates
with that error. -/
theorem C7_receipt_wait_timeout
    (env : Env) (o acc : Address) (chain : ChainState)
    (wait : WaitOutcome) (t r1 r2 t2 rc : Address)
    (hvb : validateBatchEnv env = .ok (t, r1, r2))
    (hvs : validateSingleEnv env = .ok (t2, rc)) :
    (∀ n, NetOp.waitForReceipt n ∈
      (batchTransferMain env o acc chain wait).trace → n = 120000) ∧
    (∀ n, NetOp.waitForReceipt n ∈
      (singleTransferMain env o acc chain wait).trace → n = 120000) ∧
    (batchTransferMain env o acc chain .timedOut).result =
      .error (.timeoutError "Timed out waiting for transaction receipt") ∧
    (singleTransferMain env o acc chain .timedOut).result =
      .error (.timeoutError "Timed out waiting for transaction receipt") ∧
    (∀ m m2, DispatchError.timeoutError m ≠
      DispatchError.executionError m2) := by
  rw [batchTransferMain_ok env o acc chain wait t r1 r2 hvb,
    singleTransferMain_ok env o acc chain wait t2 rc hvs,
    batchTransferMain_ok env o acc chain .timedOut t r1 r2 hvb,
    singleTransferMain_ok env o acc chain .timedOut t2 rc hvs]
  refine ⟨?_, ?_, ?_, ?_, ?_⟩
  · intro n hn
    rcases hd : isDeployed chain acc with _ | _ <;>
      rcases wait with ⟨st, bn, gu⟩ | _ <;>
      [skip; skip; skip; skip] <;>
      first
      | (cases st <;>
          simp [batchCore, settle, hd, authorizationStep,
            RECEIPT_TIMEOUT_MS] at hn <;> exact hn)
      | (simp [batchCore, settle, hd, authorizationStep,
          RECEIPT_TIMEOUT_MS] at hn; exact hn)
  · intro n hn
    rcases hd : isDeployed chain acc with _ | _ <;>
      rcases wait with ⟨st, bn, gu⟩ | _ <;>
      [skip; skip; skip; skip] <;>
      first
      | (cases st <;>
          simp [singleCore, settle, hd, authorizationStep,
            RECEIPT_TIMEOUT_MS] at hn <;> exact hn)
      | (simp [singleCore, settle, hd, authorizationStep,
          RECEIPT_TIMEOUT_MS] at hn; exact hn)
  · simp [batchCore, settle]
  · simp [singleCore, settle]
  · intro m m2 h
    exact DispatchError.noConfusion h

/-- Witness for C7 at concrete inputs. -/
theorem C7_receipt_wait_timeout_witness :
    (∀ n, NetOp.waitForReceipt n ∈
      (batchTransferMain envA ownerA ownerA chainA waitA).trace →
        n = 120000) ∧
    (∀ n, NetOp.waitForReceipt n ∈
      (singleTransferMain envA ownerA ownerA chainA waitA).trace →
        n = 120000) ∧
    (batchTransferMain envA ownerA ownerA chainA .timedOut).result =
      .error (.timeoutError "Timed out waiting for transaction receipt") ∧
    (singleTransferMain envA ownerA ownerA chainA .timedOut).result =
      .error (.timeoutError "Timed out waiting for transaction receipt") ∧
    (∀ m m2, DispatchError.timeoutError m ≠
      DispatchError.executionError m2) :=
  C7_receipt_wait_timeout envA ownerA ownerA chainA waitA
    "0xT" "0xR1" "0xR2" "0xT" "0xR1" (by decide) (by decide)

/-! Claim C8. -/

theorem runQueries_no_submit_state
    (applyTx : ChainState → TxParams → ChainState)
    (qs : List ChainQuery) :
    ∀ s : ChainState, (∀ q ∈ qs, isSubmitQ q = false) →
      (runQueries applyTx s qs).2 = s := by
  induction qs with
  | nil => intro s _; rfl
  | cons q qs ih =>
    intro s h
    have hq := h q (by simp)
    have hrest : ∀ q2 ∈ qs, isSubmitQ q2 = false :=
      fun q2 hq2 => h q2 (by simp [hq2])
    cases q with
    | isDeployedQ a => simpa [runQueries, execQuery] using ih s hrest
    | transactionCountQ a =>
      simpa [runQueries, execQuery] using ih s hrest
    | submitQ tx => simp [isSubmitQ] at hq

/-- Claim C8: the deployment check is deterministic with respect to chain
state — two is-deployed queries on the same address, with only
non-submitting interactions (and in particular no submission) in
between, answer the same boolean, for any external transaction
semantics `applyTx`. -/
theorem C8_idempotent_deployment_check
    (applyTx : ChainState → TxParams → ChainState) (s : ChainState)
    (a : Address) (qs : List ChainQuery)
    (h : ∀ q ∈ qs, isSubmitQ q = false) :
    (execQuery applyTx
      (runQueries applyTx (execQuery applyTx s (.isDeployedQ a)).2 qs).2
      (.isDeployedQ a)).1 =
    (execQuery applyTx s (.isDeployedQ a)).1 := by
  have h1 : (execQuery applyTx s (.isDeployedQ a)).2 = s := rfl
  rw [h1, runQueries_no_submit_state applyTx qs s h]

/-- Witness for C8 at concrete inputs: a nonce read between the two
deployment checks, on `chainA` with an identity submission semantics. -/
theorem C8_idempotent_deployment_check_witness :
    (∀ q ∈ [ChainQuery.transactionCountQ ownerA], isSubmitQ q = false) ∧
    (execQuery (fun s _ => s)
      (runQueries (fun s _ => s)
        (execQuery (fun s _ => s) chainA (.isDeployedQ ownerA)).2
        [ChainQuery.transactionCountQ ownerA]).2
      (.isDeployedQ ownerA)).1 =
    (execQuery (fun s _ => s) chainA (.isDeployedQ ownerA)).1 :=
  ⟨by decide,
   C8_idempotent_deployment_check (fun s _ => s) chainA ownerA
     [ChainQuery.transactionCountQ ownerA] (by decide)⟩

/-! Claim C9. -/

theorem getSimple7702Account_cached (o : Address) (st : ClientsState)
    (a : Simple7702Account) (h : st.simple7702Account = some a) :
    getSimple7702Account o st = ⟨a, st, 0⟩ := by
  simp [getSimple7702Account, h]

theorem getSmartAccountClient_cached (o : Address) (st : ClientsState)
    (c : SmartAccountClient) (h : st.smartAccountClient = some c) :
    getSmartAccountClient o st = ⟨c, st, 0, 0⟩ := by
  simp [getSmartAccountClient, h]

theorem iterateGetAccount_cached (o : Address) (st : ClientsState)
    (k : Nat) (h : st.simple7702Account.isSome) :
    iterateGetAccount o st k = (st, 0) := by
  induction k with
  | zero => rfl
  | succ k ih =>
    obtain ⟨a, ha⟩ := Option.isSome_iff_exists.mp h
    simp [iterateGetAccount, getSimple7702Account_cached o st a ha, ih]

theorem iterateGetClient_cached (o : Address) (st : ClientsState)
    (k : Nat) (h : st.smartAccountClient.isSome) :
    iterateGetClient o st k = (st, 0) := by
  induction k with
  | zero => rfl
  | succ k ih =>
    obtain ⟨c, hc⟩ := Option.isSome_iff_exists.mp h
    simp [iterateGetClient, getSmartAccountClient_cached o st c hc, ih]

/-- Claim C9: the account and client factories are memoized process-wide
singletons — for any pair of calls the second returns the identical
cached object with no fresh construction, and over any number of calls
from the process-start state each constructor runs at most once. -/
theorem C9_memoized_singleton_factories (o : Address) (st : ClientsState)
    (k : Nat) :
    (getSimple7702Account o (getSimple7702Account o st).state).account =
      (getSimple7702Account o st).account ∧
    (getSimple7702Account o
      (getSimple7702Account o st).state).constructions = 0 ∧
    (getSmartAccountClient o (getSmartAccountClient o st).state).client =
      (getSmartAccountClient o st).client ∧
    (getSmartAccountClient o
      (getSmartAccountClient o st).state).clientConstructions = 0 ∧
    (iterateGetAccount o initialClientsState k).2 ≤ 1 ∧
    (iterateGetClient o initialClientsState k).2 ≤ 1 := by
  refine ⟨?_, ?_, ?_, ?_, ?_, ?_⟩
  · cases h : st.simple7702Account <;> simp [getSimple7702Account, h]
  · cases h : st.simple7702Account <;> simp [getSimple7702Account, h]
  · cases h : st.smartAccountClient <;>
      simp [getSmartAccountClient, h, getSimple7702Account]
  · cases h : st.smartAccountClient <;>
      simp [getSmartAccountClient, h, getSimple7702Account]
  · cases k with
    | zero => simp [iterateGetAccount]
    | succ k =>
      rw [iterateGetAccount,
        iterateGetAccount_cached o _ k (by simp [getSimple7702Account,
          initialClientsState])]
      simp [getSimple7702Account, initialClientsState]
  · cases k with
    | zero => simp [iterateGetClient]
    | succ k =>
      rw [iterateGetClient,
        iterateGetClient_cached o _ k (by simp [getSmartAccountClient,
          getSimple7702Account, initialClientsState])]
      simp [getSmartAccountClient, getSimple7702Account,
        initialClientsState]

/-! Claim C10. -/

/-- Claim C10: recipient validation in the batch entry point is
asymmetric — a missing or "0x" `ERC20_TOKEN_ADDRESS` or
`RECEIVER_ADDRESS` is a configuration error, `RECEIVER_ADDRESS2` is only
rejected when unset (falsy), and the value "0x" for `RECEIVER_ADDRESS2`
passes validation and flows into the batch as the second transfer's
recipient. -/
theorem C10_receiver2_validation_asymmetry
    (t r1 : String) (o acc : Address) (chain : ChainState)
    (wait : WaitOutcome)
    (ht1 : t.isEmpty = false) (ht2 : t ≠ "0x")
    (hr1 : r1.isEmpty = false) (hr2 : r1 ≠ "0x") :
    (∀ rest1 rest2, validateBatchEnv ⟨some "0x", rest1, rest2⟩ =
      .error (.configurationError
        "ERC20_TOKEN_ADDRESS is missing in .env")) ∧
    (∀ rest2, validateBatchEnv ⟨some t, some "0x", rest2⟩ =
      .error (.configurationError "RECEIVER_ADDRESS is missing in .env")) ∧
    validateBatchEnv ⟨some t, some r1, none⟩ =
      .error (.configurationError
        "RECEIVER_ADDRESS2 is missing in .env") ∧
    validateBatchEnv ⟨some t, some r1, some "0x"⟩ = .ok (t, r1, "0x") ∧
    (∀ tx, (batchTransferMain ⟨some t, some r1, some "0x"⟩ o acc chain
        wait).submitted = some tx →
      tx.data = .batched (encodeCalls (batchCalls t r1 "0x"))) := by
  have h0x : ("0x" : String).isEmpty = false := by decide
  have hok : validateBatchEnv ⟨some t, some r1, some "0x"⟩ =
      .ok (t, r1, "0x") := by
    simp [validateBatchEnv, falsy, ht1, ht2, hr1, hr2, h0x]
  refine ⟨?_, ?_, ?_, hok, ?_⟩
  · intro rest1 rest2
    simp [validateBatchEnv, falsy]
  · intro rest2
    simp [validateBatchEnv, falsy, ht1, ht2]
  · simp [validateBatchEnv, falsy, ht1, ht2, hr1, hr2]
  · intro tx hs
    rw [batchTransferMain_ok _ o acc chain wait t r1 "0x" hok,
      batchCore_submitted] at hs
    obtain rfl := Option.some_injective _ hs
    rfl

/-- Witness for C10 at concrete inputs. -/
theorem C10_receiver2_validation_asymmetry_witness :
    (∀ rest1 rest2, validateBatchEnv ⟨some "0x", rest1, rest2⟩ =
      .error (.configurationError
        "ERC20_TOKEN_ADDRESS is missing in .env")) ∧
    (∀ rest2, validateBatchEnv ⟨some "0xT", some "0x", rest2⟩ =
      .error (.configurationError "RECEIVER_ADDRESS is missing in .env")) ∧
    validateBatchEnv ⟨some "0xT", some "0xR1", none⟩ =
      .error (.configurationError
        "RECEIVER_ADDRESS2 is missing in .env") ∧
    validateBatchEnv ⟨some "0xT", some "0xR1", some "0x"⟩ =
      .ok ("0xT", "0xR1", "0x") ∧
    (∀ tx, (batchTransferMain ⟨some "0xT", some "0xR1", some "0x"⟩ ownerA
        ownerA chainA waitA).submitted = some tx →
      tx.data = .batched (encodeCalls (batchCalls "0xT" "0xR1" "0x"))) :=
  C10_receiver2_validation_asymmetry "0xT" "0xR1" ownerA ownerA chainA
    waitA (by decide) (by decide) (by decide) (by decide)

end EIP7702
